import Mathlib

/-!
# Verification of the Cotizaciones rates backend core

Shallow embedding of `src/rates.service.ts` (the expiry-aware "smart"
variant, which the design notes designate as the intended final design)
together with the configuration values it reads.

Modelling conventions:
* JS `number` values that the code only ever treats as finite reals
  (rates, times, TTL) are modelled as `ℚ` or `ℤ`.
* Results of unguarded JS division, which may be `Infinity`/`NaN`,
  are modelled by the type `JSNum` with an explicit division `jsDiv`.
* `Record<string, number>` is modelled as an association list
  `List (String × ℚ)`; `rates[k]` is `List.lookup`, `undefined` is `none`.
* Module-level mutable state (`cachedRates`, `cacheExpiresAt`, `asOfUnix`)
  is an explicit `CacheState` record threaded through the operations.
* `Date.now()` (ms epoch) is an explicit `now_ms : ℤ` argument;
  `Math.floor(x / 1000)` on it is `Int.fdiv now_ms 1000` (floor division).
* `await fetchRatesFromProvider()` either produces a normalized snapshot
  or throws; the outcome is an explicit `FetchResult` argument.
-/

/-- One JS number as it can come out of an arithmetic expression:
either a finite value, `Infinity`, `-Infinity`, or `NaN`. -/
inductive JSNum where
  | num (q : ℚ)
  | posInf
  | negInf
  | nan
deriving DecidableEq, Repr

/-- JS division `a / b` on finite operands: finite quotient when `b ≠ 0`;
`Infinity` / `-Infinity` / `NaN` when dividing by zero (ℚ has no `-0`,
so the JS negative-zero corner is out of scope). -/
def jsDiv (a b : ℚ) : JSNum :=
  if b = 0 then
    if 0 < a then JSNum.posInf
    else if a < 0 then JSNum.negInf
    else JSNum.nan
  else JSNum.num (a / b)

/-- `ExchangeRateResponse` from `src/helpers/types/exchange-rate.types.ts`,
restricted to the fields the core logic reads. `rates : Record<string, number>`
becomes an association list. -/
structure ExchangeRateResponse where
  base_code : String
  rates : List (String × ℚ)
  time_last_update_unix : ℤ
  time_next_update_unix : ℤ
  time_eol_unix : ℤ
deriving DecidableEq, Repr

/-- The module-level mutable cache of `rates.service.ts`:
`cachedRates`, `cacheExpiresAt` (ms epoch) and `asOfUnix` (s epoch). -/
structure CacheState where
  cachedRates : Option ExchangeRateResponse
  cacheExpiresAt : ℤ
  asOfUnix : ℤ
deriving DecidableEq, Repr

/-- Initial module state: `cachedRates = null`, `cacheExpiresAt = 0`,
`asOfUnix = 0`. -/
def initialCacheState : CacheState :=
  { cachedRates := none, cacheExpiresAt := 0, asOfUnix := 0 }

/-- `isCacheValid`: `cachedRates !== null && Date.now() < cacheExpiresAt`. -/
def isCacheValid (st : CacheState) (now_ms : ℤ) : Bool :=
  st.cachedRates.isSome && decide (now_ms < st.cacheExpiresAt)

/-- `computeExpireMs(asOfUnixLocal, providerNextUpdateUnix)`:
local expiry is `asOfUnixLocal * 1000 + TTL_MS`; when
`providerNextUpdateUnix` is truthy and finite (over ℤ: nonzero, since
every integer is finite and `0` is the only falsy one) the result is
the `Math.min` of local expiry and `providerNextUpdateUnix * 1000`,
otherwise the local expiry alone. -/
def computeExpireMs (TTL_MS : ℤ) (asOfUnixLocal : ℤ)
    (providerNextUpdateUnix : ℤ) : ℤ :=
  let localExpireMs := asOfUnixLocal * 1000 + TTL_MS
  if providerNextUpdateUnix ≠ 0 then
    min localExpireMs (providerNextUpdateUnix * 1000)
  else
    localExpireMs

/-- `updateCache(rates)`: stores the snapshot, records
`asOfUnix = Math.floor(Date.now() / 1000)` and derives
`cacheExpiresAt = computeExpireMs(asOfUnix, rates.time_next_update_unix)`. -/
def updateCache (TTL_MS : ℤ) (st : CacheState) (now_ms : ℤ)
    (rates : ExchangeRateResponse) : CacheState :=
  let asOf := Int.fdiv now_ms 1000
  { st with
    cachedRates := some rates
    asOfUnix := asOf
    cacheExpiresAt := computeExpireMs TTL_MS asOf rates.time_next_update_unix }

/-- Outcome of one `await fetchRatesFromProvider()`: a normalized
snapshot, or a thrown classified error. -/
inductive FetchResult where
  | ok (snap : ExchangeRateResponse)
  | error
deriving DecidableEq, Repr

/-- Result of one call to `getLatestRates`: the returned value (or the
propagated exception), the module state afterwards, and whether a
provider fetch was issued during the call. -/
structure GetLatestOutcome where
  result : Except Unit ExchangeRateResponse
  state : CacheState
  fetched : Bool
deriving Repr

/-- `getLatestRates()`: if `isCacheValid()` returns the cached snapshot
unchanged (no fetch); otherwise awaits `fetchRatesFromProvider()` and on
success runs `updateCache(freshRates)` and returns the fresh snapshot,
on failure propagates the exception leaving the state untouched. -/
def getLatestRates (TTL_MS : ℤ) (st : CacheState) (now_ms : ℤ)
    (fetch : FetchResult) : GetLatestOutcome :=
  match st.cachedRates with
  | some snap =>
    if now_ms < st.cacheExpiresAt then
      { result := Except.ok snap, state := st, fetched := false }
    else
      match fetch with
      | FetchResult.ok fresh =>
        { result := Except.ok fresh
          state := updateCache TTL_MS st now_ms fresh
          fetched := true }
      | FetchResult.error =>
        { result := Except.error (), state := st, fetched := true }
  | none =>
    match fetch with
    | FetchResult.ok fresh =>
      { result := Except.ok fresh
        state := updateCache TTL_MS st now_ms fresh
        fetched := true }
    | FetchResult.error =>
      { result := Except.error (), state := st, fetched := true }

/-- `getRateByCurrency(currency)`: `null` when the cache is empty,
otherwise `cachedRates.rates[currency] ?? null`. -/
def getRateByCurrency (st : CacheState) (currency : String) : Option ℚ :=
  match st.cachedRates with
  | none => none
  | some snap => snap.rates.lookup currency

/-- `getRateBetweenCurrencies(from, to)` on a given cache content:
`null` when the cache is empty; then, in order: `from === to` yields `1`;
`from === base_code` yields `rates[to] ?? null`; `to === base_code`
yields `fromRate ? 1 / fromRate : null` (absent or zero `fromRate` gives
`null`); otherwise the cross pair yields the unguarded division
`toRate / fromRate` when both are present, `null` when either is absent. -/
def getRateBetweenCurrencies (cached : Option ExchangeRateResponse)
    (fromC toC : String) : Option JSNum :=
  match cached with
  | none => none
  | some snap =>
    if fromC = toC then some (JSNum.num 1)
    else if fromC = snap.base_code then
      (snap.rates.lookup toC).map JSNum.num
    else if toC = snap.base_code then
      match snap.rates.lookup fromC with
      | some fromRate =>
        if fromRate = 0 then none else some (jsDiv 1 fromRate)
      | none => none
    else
      match snap.rates.lookup fromC, snap.rates.lookup toC with
      | some fromRate, some toRate => some (jsDiv toRate fromRate)
      | some _, none => none
      | none, _ => none

/-!
## The smart refresh scheduler (`startSmartPolling`)

`startSmartPolling` closes over a one-shot timer and an `inFlight` flag.
Its `tick` is async: it runs synchronously up to
`await fetchRatesFromProvider()` and resumes when that settles, so one
tick is modelled as up to two atomic steps — a `wake` (timer fires /
tick entered) and, if a fetch was started, a later `complete` carrying
the fetch outcome.  Wake-ups arriving between the two steps observe
`inFlight = true`.  `outstanding` counts provider calls currently in
flight (it is not a program variable; it makes the single-flight
property statable).  `timer` records the delay the last `scheduleNext`
armed (`none` before any arming).
-/

/-- Scheduler state: the shared cache, the `inFlight` flag, the number of
provider fetches currently in flight, and the last armed timer delay. -/
structure SchedState where
  cache : CacheState
  inFlight : Bool
  outstanding : ℕ
  timer : Option ℤ
deriving Repr

/-- `scheduleNext(ms)`: clears any pending timer and re-arms it for
`Math.max(1000, ms)`. -/
def scheduleNext (s : SchedState) (ms : ℤ) : SchedState :=
  { s with timer := some (max 1000 ms) }

/-- An atomic scheduler step: a wake-up entering `tick`, or the
settling of the awaited provider fetch. -/
inductive SchedEvent where
  | wake (now_ms : ℤ)
  | complete (now_ms : ℤ) (res : FetchResult)
deriving Repr

/-- One atomic step of `tick`.

* `wake`: `if (inFlight) return;` — a no-op while a fetch is in flight.
  Otherwise, if the cache is still valid, reschedule for
  `cacheExpiresAt - Date.now()` (this branch has no `await`, so it is
  one atomic step and `inFlight` is back to `false` when it ends);
  otherwise set `inFlight` and start the provider fetch.
* `complete`: only meaningful when a fetch is outstanding (otherwise a
  no-op).  On success run `updateCache(fresh)`, emit, and reschedule for
  `cacheExpiresAt - Date.now()`; on error reschedule for the fixed
  15000 ms backoff.  Either way `finally` clears `inFlight`. -/
def schedStep (TTL_MS : ℤ) (s : SchedState) (e : SchedEvent) : SchedState :=
  match e with
  | SchedEvent.wake now_ms =>
    if s.inFlight then s
    else if isCacheValid s.cache now_ms then
      scheduleNext s (s.cache.cacheExpiresAt - now_ms)
    else
      { s with inFlight := true, outstanding := s.outstanding + 1 }
  | SchedEvent.complete now_ms res =>
    if s.outstanding = 0 then s
    else
      match res with
      | FetchResult.ok fresh =>
        let cache' := updateCache TTL_MS s.cache now_ms fresh
        scheduleNext
          { s with cache := cache', inFlight := false,
                   outstanding := s.outstanding - 1 }
          (cache'.cacheExpiresAt - now_ms)
      | FetchResult.error =>
        scheduleNext
          { s with inFlight := false, outstanding := s.outstanding - 1 }
          15000

/-- The bootstrap IIFE of `startSmartPolling`: `await getLatestRates()`
(which initializes the cache if it was empty), then schedule the next
refresh for `cacheExpiresAt - Date.now()`; if it throws, schedule a
retry after the fixed 5000 ms bootstrap delay. -/
def startSmartPollingInit (TTL_MS : ℤ) (cache0 : CacheState) (now_ms : ℤ)
    (fetch : FetchResult) : SchedState :=
  let out := getLatestRates TTL_MS cache0 now_ms fetch
  match out.result with
  | Except.ok _ =>
    scheduleNext
      { cache := out.state, inFlight := false, outstanding := 0, timer := none }
      (out.state.cacheExpiresAt - now_ms)
  | Except.error _ =>
    scheduleNext
      { cache := out.state, inFlight := false, outstanding := 0, timer := none }
      5000

/-- Run the scheduler over a sequence of atomic events. -/
def schedRun (TTL_MS : ℤ) (s : SchedState) (es : List SchedEvent) : SchedState :=
  es.foldl (schedStep TTL_MS) s

/-- The single-flight bookkeeping invariant: the number of outstanding
provider fetches is `1` exactly while `inFlight` is set, else `0`. -/
def singleFlight (s : SchedState) : Prop :=
  s.outstanding = if s.inFlight then 1 else 0

instance (s : SchedState) : Decidable (singleFlight s) := by
  unfold singleFlight; infer_instance

/-!
## Sample data used by the concrete witnesses and counterexamples
-/

/-- The spec's worked example: `base=USD, rates={EUR:0.90, ARS:1000}`. -/
def sampleSnapshot : ExchangeRateResponse :=
  { base_code := "USD"
    rates := [("EUR", (9 : ℚ)/10), ("ARS", 1000)]
    time_last_update_unix := 1700000000
    time_next_update_unix := 1700086400
    time_eol_unix := 0 }

/-- A snapshot whose provider-declared next update time is `0`
(the falsy value `computeExpireMs` treats as absent). -/
def zeroNextSnapshot : ExchangeRateResponse :=
  { base_code := "USD"
    rates := [("EUR", (9 : ℚ)/10)]
    time_last_update_unix := 40
    time_next_update_unix := 0
    time_eol_unix := 0 }

/-- A snapshot whose provider-declared next update time (50 s epoch)
lies in the past relative to the capture time used with it (100 s). -/
def pastNextSnapshot : ExchangeRateResponse :=
  { base_code := "USD"
    rates := [("EUR", (9 : ℚ)/10)]
    time_last_update_unix := 40
    time_next_update_unix := 50
    time_eol_unix := 0 }

/-- A snapshot with a zero rate stored for `"ZWL"`, alongside normal
entries, under base `"USD"`. -/
def zeroRateSnapshot : ExchangeRateResponse :=
  { base_code := "USD"
    rates := [("EUR", (9 : ℚ)/10), ("ZWL", 0), ("ARS", 1000)]
    time_last_update_unix := 1700000000
    time_next_update_unix := 1700086400
    time_eol_unix := 0 }

/-!
## Branch lemmas for `getRateBetweenCurrencies`
-/

/-- With an empty cache every pair, equal codes included, yields `null`. -/
theorem rateBetween_empty (f t : String) :
    getRateBetweenCurrencies none f t = none := rfl

/-- The `from === to` branch yields `1` whenever a snapshot is cached. -/
theorem rateBetween_same (snap : ExchangeRateResponse) (x : String) :
    getRateBetweenCurrencies (some snap) x x = some (JSNum.num 1) := by
  simp [getRateBetweenCurrencies]

/-- The `from === base_code` branch yields `rates[to] ?? null`. -/
theorem rateBetween_from_base (snap : ExchangeRateResponse) (f t : String)
    (h1 : f ≠ t) (h2 : f = snap.base_code) :
    getRateBetweenCurrencies (some snap) f t =
      (snap.rates.lookup t).map JSNum.num := by
  subst h2
  simp [getRateBetweenCurrencies, h1]

/-- The `to === base_code` branch yields `fromRate ? 1 / fromRate : null`. -/
theorem rateBetween_to_base (snap : ExchangeRateResponse) (f t : String)
    (h1 : f ≠ t) (h2 : f ≠ snap.base_code) (h3 : t = snap.base_code) :
    getRateBetweenCurrencies (some snap) f t =
      match snap.rates.lookup f with
      | some fromRate =>
        if fromRate = 0 then none else some (jsDiv 1 fromRate)
      | none => none := by
  cases hl : snap.rates.lookup f with
  | none => simp [getRateBetweenCurrencies, h1, h2, h3, hl]
  | some r => simp [getRateBetweenCurrencies, h1, h2, h3, hl]

/-- The cross-pair branch yields the unguarded `toRate / fromRate` when
both rates are present and `null` when either is absent. -/
theorem rateBetween_cross (snap : ExchangeRateResponse) (f t : String)
    (h1 : f ≠ t) (h2 : f ≠ snap.base_code) (h3 : t ≠ snap.base_code) :
    getRateBetweenCurrencies (some snap) f t =
      match snap.rates.lookup f, snap.rates.lookup t with
      | some fromRate, some toRate => some (jsDiv toRate fromRate)
      | some _, none => none
      | none, _ => none := by
  cases hf : snap.rates.lookup f with
  | none => simp [getRateBetweenCurrencies, h1, h2, h3, hf]
  | some rf =>
    cases ht : snap.rates.lookup t with
    | none => simp [getRateBetweenCurrencies, h1, h2, h3, hf, ht]
    | some rt => simp [getRateBetweenCurrencies, h1, h2, h3, hf, ht]

/-!
## Claim theorems
-/

/-- C1 fails as stated: a snapshot whose `time_next_update_unix` is `0`
is stored with `expires_at_ms = as_of_unix*1000 + TTL_ms` (the truthiness
guard in `computeExpireMs` skips the `min`), not
`min(as_of_unix*1000 + TTL_ms, 0) = 0`.  Concretely, with TTL 60000 ms
and capture time 100000 ms the stored expiry is 160000, not 0. -/
theorem updateCache_zero_next_breaks_min :
    (updateCache 60000 initialCacheState 100000 zeroNextSnapshot).cacheExpiresAt ≠
      min ((updateCache 60000 initialCacheState 100000 zeroNextSnapshot).asOfUnix * 1000 + 60000)
        (zeroNextSnapshot.time_next_update_unix * 1000) := by
  decide

/-- C1 (amended): every successful cache update stores the snapshot and
derives `expires_at_ms = min(as_of_unix*1000 + TTL_ms, next_update_unix*1000)`
whenever the snapshot's `next_update_unix` is nonzero; when it is `0`
(falsy, treated as absent) the expiry is `as_of_unix*1000 + TTL_ms` alone. -/
theorem updateCache_expiry_formula (TTL_MS : ℤ) (st : CacheState) (now_ms : ℤ)
    (snap : ExchangeRateResponse) :
    ((updateCache TTL_MS st now_ms snap).cachedRates = some snap) ∧
    (snap.time_next_update_unix ≠ 0 →
      (updateCache TTL_MS st now_ms snap).cacheExpiresAt =
        min ((updateCache TTL_MS st now_ms snap).asOfUnix * 1000 + TTL_MS)
          (snap.time_next_update_unix * 1000)) ∧
    (snap.time_next_update_unix = 0 →
      (updateCache TTL_MS st now_ms snap).cacheExpiresAt =
        (updateCache TTL_MS st now_ms snap).asOfUnix * 1000 + TTL_MS) := by
  refine ⟨rfl, ?_, ?_⟩ <;> intro h <;> simp [updateCache, computeExpireMs, h]

/-- Witness for C1 (amended) at TTL 60000, capture time 100000 ms, and a
snapshot with nonzero `next_update_unix`. -/
theorem updateCache_expiry_formula_witness :
    (updateCache 60000 initialCacheState 100000 sampleSnapshot).cacheExpiresAt =
      min ((updateCache 60000 initialCacheState 100000 sampleSnapshot).asOfUnix * 1000 + 60000)
        (sampleSnapshot.time_next_update_unix * 1000) :=
  (updateCache_expiry_formula 60000 initialCacheState 100000 sampleSnapshot).2.1 (by decide)

/-- C2 fails as stated: with the cache still empty,
`getRateBetweenCurrencies("USD","USD")` returns `null` (MISS), not `1`,
because the `!cachedRates` guard runs before the `from === to` check. -/
theorem rateBetween_same_empty_cache_misses :
    getRateBetweenCurrencies none "USD" "USD" ≠ some (JSNum.num 1) := by
  decide

/-- C2 (amended): whenever a snapshot is cached,
`rateBetween(X, X) = 1` for every code `X`, including codes absent from
`rates`; with an empty cache (no snapshot stored) it returns MISS instead,
since the empty-cache guard precedes the equal-codes check. -/
theorem rateBetween_same_currency (snap : ExchangeRateResponse) (x : String) :
    getRateBetweenCurrencies (some snap) x x = some (JSNum.num 1) ∧
    getRateBetweenCurrencies none x x = none :=
  ⟨rateBetween_same snap x, rateBetween_empty x x⟩

/-- C3 fails as stated: storing a snapshot whose provider-declared
`next_update_unix` (50 s) lies before the capture time (100 s) yields
`expires_at_ms = 50000 < 100000 = as_of_unix*1000`, violating the
invariant. -/
theorem updateCache_past_next_breaks_invariant :
    (updateCache 60000 initialCacheState 100000 pastNextSnapshot).cacheExpiresAt <
      (updateCache 60000 initialCacheState 100000 pastNextSnapshot).asOfUnix * 1000 := by
  decide

/-- C3 (amended): with a nonnegative TTL, the invariant
`expires_at_ms ≥ as_of_unix*1000` holds of the initial (empty) cache
state and is restored by every cache update whose snapshot declares a
`next_update_unix` that is `0` or not earlier than the capture time;
a `next_update_unix` strictly in the past breaks it. -/
theorem updateCache_expiry_invariant (TTL_MS : ℤ) (hT : 0 ≤ TTL_MS)
    (st : CacheState) (now_ms : ℤ) (snap : ExchangeRateResponse)
    (hnext : snap.time_next_update_unix = 0 ∨
      Int.fdiv now_ms 1000 ≤ snap.time_next_update_unix) :
    initialCacheState.asOfUnix * 1000 ≤ initialCacheState.cacheExpiresAt ∧
    (updateCache TTL_MS st now_ms snap).asOfUnix * 1000 ≤
      (updateCache TTL_MS st now_ms snap).cacheExpiresAt := by
  refine ⟨by simp [initialCacheState], ?_⟩
  simp only [updateCache, computeExpireMs]
  rcases hnext with h | h
  · simp [h]
    omega
  · by_cases hz : snap.time_next_update_unix = 0
    · simp [hz]
      omega
    · simp only [hz, ne_eq, not_false_eq_true, if_true, le_min_iff]
      constructor
      · omega
      · have := mul_le_mul_of_nonneg_right h (by norm_num : (0:ℤ) ≤ 1000)
        omega

/-- Witness for C3 (amended) at TTL 60000, capture time 100000 ms, and a
snapshot whose `next_update_unix` lies in the future. -/
theorem updateCache_expiry_invariant_witness :
    (updateCache 60000 initialCacheState 100000 sampleSnapshot).asOfUnix * 1000 ≤
      (updateCache 60000 initialCacheState 100000 sampleSnapshot).cacheExpiresAt :=
  (updateCache_expiry_invariant 60000 (by norm_num) initialCacheState 100000
    sampleSnapshot (Or.inr (by decide))).2

/-- C4 fails as stated: on an empty cache the read path used by the
query routes (`getLatestRates`, reached from `GET /api/rates` via
`getLatestRatesWithCacheMeta`) does not return MISS — it issues a
provider fetch and mutates the cache state. -/
theorem getLatestRates_fetches_on_miss :
    (getLatestRates 60000 initialCacheState 0 (FetchResult.ok sampleSnapshot)).fetched = true ∧
    (getLatestRates 60000 initialCacheState 0 (FetchResult.ok sampleSnapshot)).state.cachedRates ≠
      initialCacheState.cachedRates := by
  exact ⟨rfl, by decide⟩

/-- C4 (amended): the read path returns the stored snapshot, with the
state unchanged and no provider fetch, exactly when the cache is
populated and `now < expires_at_ms`; otherwise it issues a provider
fetch — updating the cache and returning the fresh snapshot on success,
and propagating the error with the state untouched on failure. -/
theorem getLatestRates_read_path (TTL_MS now_ms : ℤ) (st : CacheState)
    (fetch : FetchResult) :
    (∀ snap, st.cachedRates = some snap → now_ms < st.cacheExpiresAt →
      getLatestRates TTL_MS st now_ms fetch =
        { result := Except.ok snap, state := st, fetched := false }) ∧
    (isCacheValid st now_ms = false →
      (getLatestRates TTL_MS st now_ms fetch).fetched = true) ∧
    (isCacheValid st now_ms = false → ∀ fresh, fetch = FetchResult.ok fresh →
      getLatestRates TTL_MS st now_ms fetch =
        { result := Except.ok fresh
          state := updateCache TTL_MS st now_ms fresh
          fetched := true }) ∧
    (fetch = FetchResult.error →
      (getLatestRates TTL_MS st now_ms fetch).state = st) := by
  refine ⟨?_, ?_, ?_, ?_⟩
  · intro snap hs hlt
    simp [getLatestRates, hs, hlt]
  · intro hv
    cases hcr : st.cachedRates with
    | none => cases fetch <;> simp [getLatestRates, hcr]
    | some snap =>
      have hlt : ¬ now_ms < st.cacheExpiresAt := by
        simpa [isCacheValid, hcr] using hv
      cases fetch <;> simp [getLatestRates, hcr, hlt]
  · intro hv fresh hf
    subst hf
    cases hcr : st.cachedRates with
    | none => simp [getLatestRates, hcr]
    | some snap =>
      have hlt : ¬ now_ms < st.cacheExpiresAt := by
        simpa [isCacheValid, hcr] using hv
      simp [getLatestRates, hcr, hlt]
  · intro hf
    subst hf
    cases hcr : st.cachedRates with
    | none => simp [getLatestRates, hcr]
    | some snap =>
      by_cases hlt : now_ms < st.cacheExpiresAt <;> simp [getLatestRates, hcr, hlt]

/-- Witness for C4 (amended): a populated, still-valid cache is served
as-is at `now = 150000 ms`, with no fetch, even when the would-be fetch
result is an error. -/
theorem getLatestRates_read_path_witness :
    getLatestRates 60000 (updateCache 60000 initialCacheState 100000 sampleSnapshot)
        150000 FetchResult.error =
      { result := Except.ok sampleSnapshot
        state := updateCache 60000 initialCacheState 100000 sampleSnapshot
        fetched := false } :=
  (getLatestRates_read_path 60000 150000
      (updateCache 60000 initialCacheState 100000 sampleSnapshot)
      FetchResult.error).1 sampleSnapshot rfl (by decide)

/-- C5: when `to` is the base code and `from ≠ to`, the engine returns
`1 / rates[from]` if `rates[from]` is present and nonzero, and MISS both
when `rates[from]` is present but zero (never an infinite result) and
when `rates[from]` is absent. -/
theorem rateBetween_to_base_guard (snap : ExchangeRateResponse) (f t : String)
    (ht : t = snap.base_code) (hne : f ≠ t) :
    (∀ r, snap.rates.lookup f = some r → r ≠ 0 →
      getRateBetweenCurrencies (some snap) f t = some (JSNum.num (1 / r))) ∧
    (snap.rates.lookup f = some 0 →
      getRateBetweenCurrencies (some snap) f t = none) ∧
    (snap.rates.lookup f = none →
      getRateBetweenCurrencies (some snap) f t = none) := by
  have hfb : f ≠ snap.base_code := fun h => hne (h.trans ht.symm)
  rw [rateBetween_to_base snap f t hne hfb ht]
  refine ⟨?_, ?_, ?_⟩
  · intro r hr hr0
    simp [hr, hr0, jsDiv]
  · intro hr
    simp [hr]
  · intro hr
    simp [hr]

/-- Witness for C5 on `zeroRateSnapshot` (base USD): `EUR → USD` gives
`1 / 0.90`, the present-but-zero `ZWL → USD` gives MISS, and the absent
`GBP → USD` gives MISS. -/
theorem rateBetween_to_base_guard_witness :
    getRateBetweenCurrencies (some zeroRateSnapshot) "EUR" "USD" =
      some (JSNum.num (1 / ((9 : ℚ)/10))) ∧
    getRateBetweenCurrencies (some zeroRateSnapshot) "ZWL" "USD" = none ∧
    getRateBetweenCurrencies (some zeroRateSnapshot) "GBP" "USD" = none :=
  ⟨(rateBetween_to_base_guard zeroRateSnapshot "EUR" "USD" rfl (by decide)).1
      ((9 : ℚ)/10) rfl (by norm_num),
   (rateBetween_to_base_guard zeroRateSnapshot "ZWL" "USD" rfl (by decide)).2.1 rfl,
   (rateBetween_to_base_guard zeroRateSnapshot "GBP" "USD" rfl (by decide)).2.2 rfl⟩

/-- C6: for a cross pair (`from ≠ to`, neither the base code) the engine
returns `rates[to] / rates[from]` (JS division) when both entries are
present and MISS when either is absent; on the spec's example snapshot
(base USD, EUR ↦ 0.90, ARS ↦ 1000) it returns 0.90 for USD→EUR,
1/0.90 for EUR→USD and 1000/0.90 for EUR→ARS. -/
theorem rateBetween_cross_pair (snap : ExchangeRateResponse) (f t : String)
    (h1 : f ≠ t) (h2 : f ≠ snap.base_code) (h3 : t ≠ snap.base_code) :
    ((∀ rf rt, snap.rates.lookup f = some rf → snap.rates.lookup t = some rt →
       getRateBetweenCurrencies (some snap) f t = some (jsDiv rt rf)) ∧
     (snap.rates.lookup f = none → getRateBetweenCurrencies (some snap) f t = none) ∧
     (snap.rates.lookup t = none → getRateBetweenCurrencies (some snap) f t = none)) ∧
    (getRateBetweenCurrencies (some sampleSnapshot) "USD" "EUR" =
       some (JSNum.num ((9 : ℚ)/10)) ∧
     getRateBetweenCurrencies (some sampleSnapshot) "EUR" "USD" =
       some (JSNum.num (1 / ((9 : ℚ)/10))) ∧
     getRateBetweenCurrencies (some sampleSnapshot) "EUR" "ARS" =
       some (JSNum.num (1000 / ((9 : ℚ)/10)))) := by
  have h910 : ((9 : ℚ)/10) ≠ 0 := by norm_num
  rw [rateBetween_cross snap f t h1 h2 h3]
  refine ⟨⟨?_, ?_, ?_⟩, ?_, ?_, ?_⟩
  · intro rf rt hf ht
    rw [hf, ht]
  · intro hf
    rw [hf]
  · intro ht
    rw [ht]
    cases snap.rates.lookup f <;> rfl
  · rw [rateBetween_from_base sampleSnapshot "USD" "EUR" (by decide) rfl]
    rfl
  · rw [rateBetween_to_base sampleSnapshot "EUR" "USD" (by decide) (by decide) rfl,
      show sampleSnapshot.rates.lookup "EUR" = some ((9 : ℚ)/10) from rfl]
    simp [jsDiv, h910]
  · rw [rateBetween_cross sampleSnapshot "EUR" "ARS" (by decide) (by decide) (by decide),
      show sampleSnapshot.rates.lookup "EUR" = some ((9 : ℚ)/10) from rfl,
      show sampleSnapshot.rates.lookup "ARS" = some (1000 : ℚ) from rfl]
    simp [jsDiv, h910]

/-- Witness for C6: the cross pair EUR→ARS on the example snapshot
returns the JS division `1000 / 0.90`. -/
theorem rateBetween_cross_pair_witness :
    getRateBetweenCurrencies (some sampleSnapshot) "EUR" "ARS" =
      some (jsDiv 1000 ((9 : ℚ)/10)) :=
  (rateBetween_cross_pair sampleSnapshot "EUR" "ARS" (by decide) (by decide)
      (by decide)).1.1 ((9 : ℚ)/10) 1000 rfl rfl

/-- C7: a refresh cycle whose provider fetch fails — a wake-up that may
start a fetch, followed by the fetch settling with an error — leaves the
cache field of the scheduler state exactly as it was (the last good
snapshot, or emptiness, is preserved). -/
theorem failed_refresh_leaves_cache (TTL_MS : ℤ) (s : SchedState)
    (now1 now2 : ℤ) :
    (schedStep TTL_MS (schedStep TTL_MS s (SchedEvent.wake now1))
        (SchedEvent.complete now2 FetchResult.error)).cache = s.cache := by
  have hwake : ∀ u : SchedState, ∀ n : ℤ,
      (schedStep TTL_MS u (SchedEvent.wake n)).cache = u.cache := by
    intro u n
    simp only [schedStep, scheduleNext]
    split_ifs <;> rfl
  have hcomp : ∀ u : SchedState, ∀ n : ℤ,
      (schedStep TTL_MS u (SchedEvent.complete n FetchResult.error)).cache = u.cache := by
    intro u n
    simp only [schedStep, scheduleNext]
    split_ifs <;> rfl
  rw [hcomp, hwake]

/-- Helper: with an invalid cache, `getLatestRates` on a failed fetch
propagates the error and leaves the state untouched. -/
theorem getLatestRates_error_of_invalid (TTL_MS now_ms : ℤ) (st : CacheState)
    (hv : isCacheValid st now_ms = false) :
    getLatestRates TTL_MS st now_ms FetchResult.error =
      { result := Except.error (), state := st, fetched := true } := by
  cases hcr : st.cachedRates with
  | none => simp [getLatestRates, hcr]
  | some snap =>
    have hlt : ¬ now_ms < st.cacheExpiresAt := by
      simpa [isCacheValid, hcr] using hv
    simp [getLatestRates, hcr, hlt]

/-- C8: a failed steady-state fetch re-arms the wake timer for exactly
15000 ms; a failed bootstrap fetch (cache not yet valid) re-arms it for
exactly 5000 ms; and every delay handed to `scheduleNext` is clamped to
at least 1000 ms. -/
theorem failure_backoff_delays (TTL_MS : ℤ) (s : SchedState) (now_ms : ℤ)
    (cache0 : CacheState) (now0 : ℤ) :
    (s.outstanding ≠ 0 →
      (schedStep TTL_MS s (SchedEvent.complete now_ms FetchResult.error)).timer =
        some 15000) ∧
    (isCacheValid cache0 now0 = false →
      (startSmartPollingInit TTL_MS cache0 now0 FetchResult.error).timer =
        some 5000) ∧
    (∀ ms : ℤ, ∃ d : ℤ, (scheduleNext s ms).timer = some d ∧ 1000 ≤ d) := by
  refine ⟨?_, ?_, ?_⟩
  · intro h
    simp only [schedStep, scheduleNext]
    rw [if_neg h]
    norm_num
  · intro hv
    unfold startSmartPollingInit
    rw [getLatestRates_error_of_invalid TTL_MS now0 cache0 hv]
    simp [scheduleNext]
  · intro ms
    exact ⟨max 1000 ms, rfl, le_max_left _ _⟩

/-- Witness for C8: a fetch failing while one is outstanding schedules
the 15000 ms backoff, and a failed bootstrap on the empty initial cache
schedules the 5000 ms retry. -/
theorem failure_backoff_delays_witness :
    (schedStep 60000
        { cache := initialCacheState, inFlight := true, outstanding := 1, timer := none }
        (SchedEvent.complete 0 FetchResult.error)).timer = some 15000 ∧
    (startSmartPollingInit 60000 initialCacheState 0 FetchResult.error).timer =
      some 5000 :=
  ⟨(failure_backoff_delays 60000
      { cache := initialCacheState, inFlight := true, outstanding := 1, timer := none }
      0 initialCacheState 0).1 (by decide),
   (failure_backoff_delays 60000
      { cache := initialCacheState, inFlight := true, outstanding := 1, timer := none }
      0 initialCacheState 0).2.1 (by decide)⟩

/-- Helper: one atomic scheduler step preserves the single-flight
bookkeeping invariant. -/
theorem singleFlight_step (TTL_MS : ℤ) (s : SchedState) (e : SchedEvent)
    (h : singleFlight s) : singleFlight (schedStep TTL_MS s e) := by
  unfold singleFlight at h ⊢
  cases e with
  | wake now_ms =>
    by_cases hf : s.inFlight
    · simpa [schedStep, hf] using h
    · by_cases hv : isCacheValid s.cache now_ms
      · simpa [schedStep, hf, hv, scheduleNext] using h
      · simp only [schedStep, hf, hv] at *
        simp at h ⊢
        omega
  | complete now_ms res =>
    by_cases ho : s.outstanding = 0
    · simpa [schedStep, ho] using h
    · have hif : s.inFlight = true := by
        by_contra hif
        simp [Bool.not_eq_true] at hif
        rw [hif] at h
        simp at h
        exact ho h
      rw [hif] at h
      simp at h
      cases res <;> simp [schedStep, ho, scheduleNext, h]

/-- Helper: the invariant is preserved along any event trace. -/
theorem singleFlight_run (TTL_MS : ℤ) (s : SchedState) (es : List SchedEvent)
    (h : singleFlight s) : singleFlight (schedRun TTL_MS s es) := by
  induction es generalizing s with
  | nil => exact h
  | cons e es ih => exact ih (schedStep TTL_MS s e) (singleFlight_step TTL_MS s e h)

/-- Helper: the bootstrap leaves the scheduler with no fetch in flight. -/
theorem singleFlight_start (TTL_MS : ℤ) (cache0 : CacheState) (now0 : ℤ)
    (f0 : FetchResult) :
    singleFlight (startSmartPollingInit TTL_MS cache0 now0 f0) := by
  unfold startSmartPollingInit singleFlight
  cases h : (getLatestRates TTL_MS cache0 now0 f0).result <;>
    simp [h, scheduleNext]

/-- C9: in every state the scheduler reaches from its bootstrap, under
any interleaving of wake and fetch-settling events, at most one provider
fetch is outstanding; moreover a wake event firing while a fetch is in
flight is a strict no-op on the whole scheduler state. -/
theorem single_flight_guarantee (TTL_MS : ℤ) (cache0 : CacheState) (now0 : ℤ)
    (f0 : FetchResult) (es : List SchedEvent) :
    (schedRun TTL_MS (startSmartPollingInit TTL_MS cache0 now0 f0) es).outstanding ≤ 1 ∧
    (∀ s : SchedState, s.inFlight = true → ∀ now_ms : ℤ,
      schedStep TTL_MS s (SchedEvent.wake now_ms) = s) := by
  constructor
  · have h := singleFlight_run TTL_MS (startSmartPollingInit TTL_MS cache0 now0 f0)
      es (singleFlight_start TTL_MS cache0 now0 f0)
    unfold singleFlight at h
    rw [h]
    split_ifs <;> omega
  · intro s hf now_ms
    simp [schedStep, hf]

/-- Witness for C9: a wake event in a state with a fetch in flight
changes nothing, and after the events of a failed bootstrap plus a
wake/complete round at most one fetch is outstanding. -/
theorem single_flight_guarantee_witness :
    schedStep 60000
        { cache := initialCacheState, inFlight := true, outstanding := 1, timer := none }
        (SchedEvent.wake 123) =
      { cache := initialCacheState, inFlight := true, outstanding := 1, timer := none } ∧
    (schedRun 60000 (startSmartPollingInit 60000 initialCacheState 0 FetchResult.error)
        [SchedEvent.wake 5000, SchedEvent.wake 5001,
         SchedEvent.complete 5002 FetchResult.error]).outstanding ≤ 1 :=
  ⟨(single_flight_guarantee 60000 initialCacheState 0 FetchResult.error []).2
      { cache := initialCacheState, inFlight := true, outstanding := 1, timer := none }
      rfl 123,
   (single_flight_guarantee 60000 initialCacheState 0 FetchResult.error
      [SchedEvent.wake 5000, SchedEvent.wake 5001,
       SchedEvent.complete 5002 FetchResult.error]).1⟩

/-- C10: the zero-denominator guard applies only to the `to == base_code`
branch — on a cross pair whose `rates[from]` is present but `0` and whose
`rates[to]` is present, the engine returns the unguarded JS division
`rates[to] / 0`, a non-MISS infinite-or-NaN value, never a finite number
and never MISS. -/
theorem cross_pair_zero_divisor_unguarded (snap : ExchangeRateResponse)
    (f t : String) (rt : ℚ)
    (h1 : f ≠ t) (h2 : f ≠ snap.base_code) (h3 : t ≠ snap.base_code)
    (hf : snap.rates.lookup f = some 0) (ht : snap.rates.lookup t = some rt) :
    getRateBetweenCurrencies (some snap) f t = some (jsDiv rt 0) ∧
    getRateBetweenCurrencies (some snap) f t ≠ none ∧
    ∀ q : ℚ, jsDiv rt 0 ≠ JSNum.num q := by
  have heq : getRateBetweenCurrencies (some snap) f t = some (jsDiv rt 0) := by
    rw [rateBetween_cross snap f t h1 h2 h3, hf, ht]
  refine ⟨heq, by rw [heq]; simp, ?_⟩
  intro q
  simp only [jsDiv, if_pos rfl]
  split_ifs <;> simp

/-- Witness for C10: `ZWL → ARS` on the snapshot that stores a zero ZWL
rate yields the non-MISS value `1000 / 0`. -/
theorem cross_pair_zero_divisor_unguarded_witness :
    getRateBetweenCurrencies (some zeroRateSnapshot) "ZWL" "ARS" =
      some (jsDiv 1000 0) ∧
    getRateBetweenCurrencies (some zeroRateSnapshot) "ZWL" "ARS" ≠ none :=
  ⟨(cross_pair_zero_divisor_unguarded zeroRateSnapshot "ZWL" "ARS" 1000
      (by decide) (by decide) (by decide) rfl rfl).1,
   (cross_pair_zero_divisor_unguarded zeroRateSnapshot "ZWL" "ARS" 1000
      (by decide) (by decide) (by decide) rfl rfl).2.1⟩
